import Mathlib

/-!
# Verification of the in-memory blob descriptor cache

Shallow embedding of `registry/storage/cache/memory` from docker-distribution:
the global blob descriptor cache provider (`inMemoryBlobDescriptorCacheProvider`)
and its repository-scoped views (`repositoryScopedInMemoryBlobDescriptorCache`),
together with theorems settling the behavioural claims of the specification.

The shared ARC store is embedded as an association list with insert-or-replace,
lookup and remove; eviction is abstracted away (the store behaves as in unbounded
mode, capacity not reached), since every claim below concerns the logical
read/write/clear/aliasing behaviour rather than the eviction policy.

Collaborators that live outside the supplied sources (the digest validation
predicate of `go-digest`, `cache.ValidateDescriptor`, and the repository-name
normalizer `reference.ParseNormalizedNamed`) are modelled from the spec; their
doc comments say so explicitly.
-/

/-- Errors surfaced by the cache, per the spec's error taxonomy:
`errBlobUnknown` is `distribution.ErrBlobUnknown` (the miss signal),
`invalidDigest` the digest-validation failure, `invalidDescriptor` the
descriptor-validation failure, `invalidRepositoryName` the scoped-view
construction failure. -/
inductive CacheError where
  | errBlobUnknown
  | invalidDigest
  | invalidDescriptor
  | invalidRepositoryName
deriving DecidableEq, Repr

/-- `distribution.Descriptor`: media type, size and canonical digest of a blob.
The digest is kept as its string form, as in `go-digest`. -/
structure Descriptor where
  mediaType : String
  size : Int
  digest : String
deriving DecidableEq, Repr

/-- `descriptorCacheKey` from the source: the composite cache key of a digest
and a repository scope, `repo = ""` denoting the global scope. -/
structure descriptorCacheKey where
  digest : String
  repo : String
deriving DecidableEq, Repr

/-- The algorithm component of a digest string: the prefix up to the first
colon, or the whole string when no colon is present (as in
`digest.Digest.Algorithm`). -/
def digestAlgorithm (d : String) : String :=
  String.mk (d.toList.takeWhile (fun c => c ≠ ':'))

/-- The encoded (hex) component of a digest string: everything after the
first colon. -/
def digestHexPart (d : String) : String :=
  String.mk ((d.toList.dropWhile (fun c => c ≠ ':')).drop 1)

/-- Lowercase-hex character predicate for digest encodings. -/
def isLowerHex (c : Char) : Bool :=
  (('0' ≤ c && c ≤ '9') || ('a' ≤ c && c ≤ 'f'))

/-- The encoded length each supported algorithm requires. -/
def algorithmHexLength (alg : String) : Option Nat :=
  if alg = "sha256" then some 64
  else if alg = "sha384" then some 96
  else if alg = "sha512" then some 128
  else none

/-- Modelled from the spec: the digest validation predicate
(`digest.Digest.Validate` of `go-digest`, an external collaborator absent from
the supplied sources). A digest must be `algorithm ":" encoded` with a
non-empty algorithm, a non-empty encoded part, a supported algorithm, and an
encoded part of the algorithm-specific length over the lowercase-hex charset.
Returns `some invalidDigest` on failure, `none` on success. -/
def digestValidate (d : String) : Option CacheError :=
  let alg := digestAlgorithm d
  let hex := digestHexPart d
  if alg.length = 0 ∨ alg.length = d.length ∨ hex.length = 0 then
    some CacheError.invalidDigest
  else
    match algorithmHexLength alg with
    | none => some CacheError.invalidDigest
    | some n =>
      if hex.length = n ∧ hex.toList.all isLowerHex then none
      else some CacheError.invalidDigest

/-- Modelled from the spec: descriptor well-formedness,
`cache.ValidateDescriptor` (the `registry/storage/cache` package is absent from
the supplied sources): the embedded digest must be present and valid, the size
non-negative, the media type non-empty. -/
def ValidateDescriptor (desc : Descriptor) : Option CacheError :=
  match digestValidate desc.digest with
  | some e => some e
  | none =>
    if desc.size < 0 then some CacheError.invalidDescriptor
    else if desc.mediaType = "" then some CacheError.invalidDescriptor
    else none

/-- Modelled from the spec: the Adaptive Cache Store contract of §4.1, with
eviction abstracted away (unbounded mode / capacity not reached): a key-value
association from cache keys to descriptors. -/
def Store := List (descriptorCacheKey × Descriptor)

/-- `get(key)`: the stored descriptor, if present (`lru.Get`). -/
def Store.get : Store → descriptorCacheKey → Option Descriptor
  | [], _ => none
  | (k, v) :: rest, key => if k = key then some v else Store.get rest key

/-- `remove(key)`: delete the entry for `key` if present; no-op otherwise
(`lru.Remove`). -/
def Store.remove : Store → descriptorCacheKey → Store
  | [], _ => []
  | (k, v) :: rest, key =>
    if k = key then Store.remove rest key
    else (k, v) :: Store.remove rest key

/-- `put(key, value)`: insert or replace (`lru.Add`). -/
def Store.add (s : Store) (key : descriptorCacheKey) (v : Descriptor) : Store :=
  (key, v) :: Store.remove s key

/-- `inMemoryBlobDescriptorCacheProvider.Stat`: validate the digest, then look
up the global-scope key; a miss is `ErrBlobUnknown`. -/
def Provider.Stat (s : Store) (dgst : String) : Except CacheError Descriptor :=
  match digestValidate dgst with
  | some e => Except.error e
  | none =>
    match Store.get s { digest := dgst, repo := "" } with
    | some desc => Except.ok desc
    | none => Except.error CacheError.errBlobUnknown

/-- `inMemoryBlobDescriptorCacheProvider.Clear`: remove the global-scope key
and return success; note the source performs no digest validation here. -/
def Provider.Clear (s : Store) (dgst : String) : Except CacheError Unit × Store :=
  (Except.ok (), Store.remove s { digest := dgst, repo := "" })

/-- The tail of `inMemoryBlobDescriptorCacheProvider.SetDescriptor` after the
miss check and the optional canonical registration: validate the digest,
validate the descriptor, then store under the global-scope key. -/
def Provider.setDescriptorStore (s : Store) (dgst : String) (desc : Descriptor) :
    Except CacheError Unit × Store :=
  match digestValidate dgst with
  | some e => (Except.error e, s)
  | none =>
    match ValidateDescriptor desc with
    | some e => (Except.error e, s)
    | none => (Except.ok (), Store.add s { digest := dgst, repo := "" } desc)

/-- `inMemoryBlobDescriptorCacheProvider.SetDescriptor`, with the source's
recursive self-call embedded through an explicit fuel parameter (`none` marks
fuel exhaustion; `setDescriptor_depth_bounded` below shows fuel 2 always
suffices, i.e. the nesting depth never exceeds one). On a miss, when the given
digest and the descriptor's digest differ in both algorithm and value, the
canonical pair is registered first; an entry already present makes the call a
no-op. -/
def Provider.SetDescriptorAux : Nat → Store → String → Descriptor →
    Option (Except CacheError Unit × Store)
  | 0, _, _, _ => none
  | fuel + 1, s, dgst, desc =>
    match Provider.Stat s dgst with
    | Except.error CacheError.errBlobUnknown =>
      if digestAlgorithm dgst ≠ digestAlgorithm desc.digest ∧ dgst ≠ desc.digest then
        match Provider.SetDescriptorAux fuel s desc.digest desc with
        | none => none
        | some (Except.error e, s1) => some (Except.error e, s1)
        | some (Except.ok _, s1) => some (Provider.setDescriptorStore s1 dgst desc)
      else
        some (Provider.setDescriptorStore s dgst desc)
    | Except.error e => some (Except.error e, s)
    | Except.ok _ => some (Except.ok (), s)

/-- `inMemoryBlobDescriptorCacheProvider.SetDescriptor`: the fuel-2 instance,
which `setDescriptor_depth_bounded` proves total and fuel-independent. -/
def Provider.SetDescriptor (s : Store) (dgst : String) (desc : Descriptor) :
    Except CacheError Unit × Store :=
  (Provider.SetDescriptorAux 2 s dgst desc).getD (Except.error CacheError.errBlobUnknown, s)

/-- `repositoryScopedInMemoryBlobDescriptorCache.Stat`: validate the digest,
then look up the repository-scoped key; no fallback to the global entry. -/
def Scoped.Stat (repo : String) (s : Store) (dgst : String) : Except CacheError Descriptor :=
  match digestValidate dgst with
  | some e => Except.error e
  | none =>
    match Store.get s { digest := dgst, repo := repo } with
    | some desc => Except.ok desc
    | none => Except.error CacheError.errBlobUnknown

/-- `repositoryScopedInMemoryBlobDescriptorCache.Clear`: remove only the
repository-scoped key and return success; the source performs no digest
validation here, and the global entry is left untouched. -/
def Scoped.Clear (repo : String) (s : Store) (dgst : String) :
    Except CacheError Unit × Store :=
  (Except.ok (), Store.remove s { digest := dgst, repo := repo })

/-- `repositoryScopedInMemoryBlobDescriptorCache.SetDescriptor`: validate the
digest and descriptor, write the repository-scoped entry unconditionally, then
forward to the parent provider's `SetDescriptor`. -/
def Scoped.SetDescriptor (repo : String) (s : Store) (dgst : String) (desc : Descriptor) :
    Except CacheError Unit × Store :=
  match digestValidate dgst with
  | some e => (Except.error e, s)
  | none =>
    match ValidateDescriptor desc with
    | some e => (Except.error e, s)
    | none =>
      Provider.SetDescriptor (Store.add s { digest := dgst, repo := repo } desc) dgst desc

/-- Modelled from the spec: the repository-name validator/normalizer
(`reference.ParseNormalizedNamed`, from the repository's `reference` package,
absent from the supplied sources). A name is accepted when non-empty and made
of non-empty slash-separated components over lowercase letters, digits and the
separators dot, dash, underscore; a familiar single-component name is
normalized under the canonical registry prefix `docker.io/library/`, while a
path-qualified name normalizes to itself. Returns the normalized name. -/
def validNameComponent (c : List Char) : Bool :=
  !c.isEmpty && c.all (fun ch => ch.isLower || ch.isDigit || ch = '.' || ch = '-' || ch = '_')

/-- Split a character list at slashes. -/
def splitSlashes : List Char → List (List Char)
  | [] => [[]]
  | c :: rest =>
    let r := splitSlashes rest
    if c = '/' then [] :: r
    else (c :: r.headD []) :: r.tail

/-- Modelled from the spec: see `validNameComponent`. -/
def ParseNormalizedNamed (name : String) : Option String :=
  let comps := splitSlashes name.toList
  if comps.all validNameComponent then
    if comps.length = 1 then some ("docker.io/library/" ++ name)
    else some name
  else none

/-- The repository-scoped view handed out by
`inMemoryBlobDescriptorCacheProvider.RepositoryScoped`: it retains the
repository name and a reference to the shared parent store. -/
structure ScopedView where
  repo : String
deriving DecidableEq, Repr

/-- `inMemoryBlobDescriptorCacheProvider.RepositoryScoped`: validate the name
through the normalizer, failing on a name that cannot be normalized; the view
retains the supplied name itself (the source sets `repo: repo`). -/
def Provider.RepositoryScoped (repo : String) : Except CacheError ScopedView :=
  match ParseNormalizedNamed repo with
  | none => Except.error CacheError.invalidRepositoryName
  | some _ => Except.ok { repo := repo }

/-- `math.MaxInt` on a 64-bit platform. -/
def maxInt : Int := 2 ^ 63 - 1

/-- `DefaultSize` from the source. -/
def DefaultSize : Int := 10000

/-- `UnlimitedSize` from the source. -/
def UnlimitedSize : Int := maxInt

/-- The constructed ARC cache, of which only the accepted capacity matters for
the construction claims. -/
structure ARCCache where
  size : Int
deriving DecidableEq, Repr

/-- `lru.NewARC`: per the source's own comment, it can only fail when the size
is not positive. -/
def NewARC (size : Int) : Except String ARCCache :=
  if size ≤ 0 then Except.error "size must be a positive integer" else Except.ok { size := size }

/-- `NewInMemoryBlobDescriptorCacheProvider`: a non-positive size is replaced
by `math.MaxInt` (unbounded) before constructing the ARC cache; the panic
branch is unreachable and embedded as error propagation. -/
def NewInMemoryBlobDescriptorCacheProvider (size : Int) : Except String ARCCache :=
  let sz := if size ≤ 0 then maxInt else size
  NewARC sz

/-- Decidable equality on `Except`, so concrete operation results can be
checked by `decide`. -/
instance {e a : Type} [DecidableEq e] [DecidableEq a] : DecidableEq (Except e a) :=
  fun x y =>
  match x, y with
  | Except.ok u, Except.ok v =>
    if h : u = v then isTrue (h ▸ rfl)
    else isFalse fun hh => Except.noConfusion hh fun huv => h huv
  | Except.error u, Except.error v =>
    if h : u = v then isTrue (h ▸ rfl)
    else isFalse fun hh => Except.noConfusion hh fun huv => h huv
  | Except.ok _, Except.error _ => isFalse fun hh => Except.noConfusion hh
  | Except.error _, Except.ok _ => isFalse fun hh => Except.noConfusion hh

/-- The store unfolds to an association list, so its equality is decidable. -/
instance : DecidableEq Store :=
  inferInstanceAs (DecidableEq (List (descriptorCacheKey × Descriptor)))

/-! ## Concrete fixtures for witnesses and counterexamples -/

/-- A valid sha256 digest. -/
def digestA : String :=
  "sha256:aaaaaaaaaaaaaaaaaaaaaaaaaaaaaaaaaaaaaaaaaaaaaaaaaaaaaaaaaaaaaaaa"

/-- A second valid sha256 digest, distinct from `digestA`. -/
def digestB : String :=
  "sha256:bbbbbbbbbbbbbbbbbbbbbbbbbbbbbbbbbbbbbbbbbbbbbbbbbbbbbbbbbbbbbbbb"

/-- A valid sha384 digest, so its algorithm differs from the sha256 ones. -/
def digestC : String := "sha384:" ++ String.mk (List.replicate 96 ('c'))

/-- A valid descriptor whose canonical digest is `digestA`. -/
def descriptorA : Descriptor :=
  { mediaType := "application/octet-stream", size := 5, digest := digestA }

/-- A second valid descriptor with canonical digest `digestA`, distinct from
`descriptorA`. -/
def descriptorA2 : Descriptor :=
  { mediaType := "application/octet-stream", size := 9, digest := digestA }

/-- A valid descriptor whose canonical digest is `digestB`. -/
def descriptorB : Descriptor :=
  { mediaType := "application/octet-stream", size := 7, digest := digestB }


/-! ## Basic lemmas about the store -/

theorem Store.get_remove (s : Store) (k k' : descriptorCacheKey) :
    Store.get (Store.remove s k) k' = if k' = k then none else Store.get s k' := by
  induction s with
  | nil => by_cases h : k' = k <;> simp [Store.remove, Store.get, h]
  | cons p rest ih =>
    obtain ⟨kk, vv⟩ := p
    by_cases h1 : kk = k
    · subst h1
      simp only [Store.remove, eq_self_iff_true, ite_true]
      rw [ih]
      by_cases h2 : k' = kk
      · simp [h2]
      · have h2' : ¬ kk = k' := fun hh => h2 hh.symm
        simp [Store.get, h2, h2']
    · by_cases h2 : kk = k'
      · subst h2
        simp [Store.remove, Store.get, h1, ih]
      · simp [Store.remove, Store.get, h1, h2, ih]

theorem Store.get_add_self (s : Store) (k : descriptorCacheKey) (v : Descriptor) :
    Store.get (Store.add s k v) k = some v := by
  simp [Store.add, Store.get]

theorem Store.get_add_ne (s : Store) (k k' : descriptorCacheKey) (v : Descriptor)
    (h : k' ≠ k) : Store.get (Store.add s k v) k' = Store.get s k' := by
  have h' : ¬ k = k' := fun hh => h hh.symm
  simp [Store.add, Store.get, h', Store.get_remove, h]

theorem Store.remove_of_get_none (s : Store) (k : descriptorCacheKey)
    (h : Store.get s k = none) : Store.remove s k = s := by
  induction s with
  | nil => rfl
  | cons p rest ih =>
    obtain ⟨kk, vv⟩ := p
    by_cases h1 : kk = k
    · subst h1; simp [Store.get] at h
    · simp [Store.get, h1] at h
      simp [Store.remove, h1, ih h]

/-! ## Lemmas about validation and Stat -/

theorem validateDescriptor_digest {desc : Descriptor}
    (h : ValidateDescriptor desc = none) : digestValidate desc.digest = none := by
  unfold ValidateDescriptor at h
  cases hv : digestValidate desc.digest with
  | none => rfl
  | some e => simp [hv] at h

theorem stat_of_found {s : Store} {d : String} {v : Descriptor}
    (hd : digestValidate d = none) (hg : Store.get s { digest := d, repo := "" } = some v) :
    Provider.Stat s d = Except.ok v := by
  simp [Provider.Stat, hd, hg]

theorem stat_of_missing {s : Store} {d : String}
    (hd : digestValidate d = none) (hg : Store.get s { digest := d, repo := "" } = none) :
    Provider.Stat s d = Except.error CacheError.errBlobUnknown := by
  simp [Provider.Stat, hd, hg]

theorem stat_of_invalid {s : Store} {d : String} {e : CacheError}
    (hd : digestValidate d = some e) : Provider.Stat s d = Except.error e := by
  simp [Provider.Stat, hd]

theorem scoped_stat_of_found {R : String} {s : Store} {d : String} {v : Descriptor}
    (hd : digestValidate d = none) (hg : Store.get s { digest := d, repo := R } = some v) :
    Scoped.Stat R s d = Except.ok v := by
  simp [Scoped.Stat, hd, hg]

theorem scoped_stat_of_missing {R : String} {s : Store} {d : String}
    (hd : digestValidate d = none) (hg : Store.get s { digest := d, repo := R } = none) :
    Scoped.Stat R s d = Except.error CacheError.errBlobUnknown := by
  simp [Scoped.Stat, hd, hg]

/-! ## Unfolding lemmas for the fueled SetDescriptor -/

theorem setDescriptorStore_spec (s : Store) (dgst : String) (desc : Descriptor)
    (hd : digestValidate dgst = none) (hdesc : ValidateDescriptor desc = none) :
    Provider.setDescriptorStore s dgst desc =
      (Except.ok (), Store.add s { digest := dgst, repo := "" } desc) := by
  simp [Provider.setDescriptorStore, hd, hdesc]

theorem setDescriptorAux_succ (fuel : Nat) (s : Store) (dgst : String) (desc : Descriptor) :
    Provider.SetDescriptorAux (fuel + 1) s dgst desc =
      match Provider.Stat s dgst with
      | Except.error CacheError.errBlobUnknown =>
        if digestAlgorithm dgst ≠ digestAlgorithm desc.digest ∧ dgst ≠ desc.digest then
          match Provider.SetDescriptorAux fuel s desc.digest desc with
          | none => none
          | some (Except.error e, s1) => some (Except.error e, s1)
          | some (Except.ok _, s1) => some (Provider.setDescriptorStore s1 dgst desc)
        else
          some (Provider.setDescriptorStore s dgst desc)
      | Except.error e => some (Except.error e, s)
      | Except.ok _ => some (Except.ok (), s) := rfl

theorem aux_one_canonical (s : Store) (desc : Descriptor)
    (hdd : digestValidate desc.digest = none) (hdesc : ValidateDescriptor desc = none) :
    Provider.SetDescriptorAux 1 s desc.digest desc =
      some (Except.ok (),
        match Store.get s { digest := desc.digest, repo := "" } with
        | some _ => s
        | none => Store.add s { digest := desc.digest, repo := "" } desc) := by
  cases hg : Store.get s { digest := desc.digest, repo := "" } with
  | some w =>
    have h := stat_of_found hdd hg
    rw [show (1 : Nat) = 0 + 1 from rfl, setDescriptorAux_succ, h]
  | none =>
    have h := stat_of_missing hdd hg
    rw [show (1 : Nat) = 0 + 1 from rfl, setDescriptorAux_succ, h]
    simp [setDescriptorStore_spec _ _ _ hdd hdesc]

theorem global_set_of_known (s : Store) (dgst : String) (desc v : Descriptor)
    (h : Provider.Stat s dgst = Except.ok v) :
    Provider.SetDescriptor s dgst desc = (Except.ok (), s) := by
  simp only [Provider.SetDescriptor]
  rw [show (2 : Nat) = 1 + 1 from rfl, setDescriptorAux_succ, h]
  rfl

theorem global_set_of_invalid (s : Store) (dgst : String) (desc : Descriptor)
    {e : CacheError} (he : e ≠ CacheError.errBlobUnknown)
    (h : Provider.Stat s dgst = Except.error e) :
    Provider.SetDescriptor s dgst desc = (Except.error e, s) := by
  simp only [Provider.SetDescriptor]
  rw [show (2 : Nat) = 1 + 1 from rfl, setDescriptorAux_succ, h]
  cases e with
  | errBlobUnknown => exact absurd rfl he
  | invalidDigest => rfl
  | invalidDescriptor => rfl
  | invalidRepositoryName => rfl

theorem global_set_of_miss (s : Store) (dgst : String) (desc : Descriptor)
    (hd : digestValidate dgst = none) (hdesc : ValidateDescriptor desc = none)
    (hg : Store.get s { digest := dgst, repo := "" } = none) :
    Provider.SetDescriptor s dgst desc =
      (Except.ok (),
        Store.add
          (if digestAlgorithm dgst ≠ digestAlgorithm desc.digest ∧ dgst ≠ desc.digest then
            (match Store.get s { digest := desc.digest, repo := "" } with
             | some _ => s
             | none => Store.add s { digest := desc.digest, repo := "" } desc)
           else s)
          { digest := dgst, repo := "" } desc) := by
  have hdd := validateDescriptor_digest hdesc
  have hstat := stat_of_missing hd hg
  simp only [Provider.SetDescriptor]
  rw [show (2 : Nat) = 1 + 1 from rfl, setDescriptorAux_succ, hstat]
  by_cases hguard : digestAlgorithm dgst ≠ digestAlgorithm desc.digest ∧ dgst ≠ desc.digest
  · rw [if_pos hguard] at *
    rw [aux_one_canonical s desc hdd hdesc]
    cases hcg : Store.get s { digest := desc.digest, repo := "" } with
    | some w => simp [hguard, setDescriptorStore_spec _ _ _ hd hdesc]
    | none => simp [hguard, setDescriptorStore_spec _ _ _ hd hdesc]
  · simp [hguard, setDescriptorStore_spec _ _ _ hd hdesc]

theorem global_set_spec (s : Store) (dgst : String) (desc : Descriptor)
    (hd : digestValidate dgst = none) (hdesc : ValidateDescriptor desc = none) :
    ∃ s1, Provider.SetDescriptor s dgst desc = (Except.ok (), s1) ∧
      Store.get s1 { digest := dgst, repo := "" } =
        some ((Store.get s { digest := dgst, repo := "" }).getD desc) ∧
      (∀ k, k ≠ { digest := dgst, repo := "" } →
        k ≠ { digest := desc.digest, repo := "" } → Store.get s1 k = Store.get s k) ∧
      (∀ v, Store.get s { digest := dgst, repo := "" } = some v → s1 = s) := by
  cases hg : Store.get s { digest := dgst, repo := "" } with
  | some v =>
    refine ⟨s, global_set_of_known s dgst desc v (stat_of_found hd hg), ?_, ?_, ?_⟩
    · simp [hg]
    · intro k _ _; rfl
    · intro v' _; rfl
  | none =>
    rw [global_set_of_miss s dgst desc hd hdesc hg]
    refine ⟨_, rfl, ?_, ?_, ?_⟩
    · simp [Store.get_add_self]
    · intro k hk1 hk2
      rw [Store.get_add_ne _ _ _ _ hk1]
      by_cases hguard : digestAlgorithm dgst ≠ digestAlgorithm desc.digest ∧ dgst ≠ desc.digest
      · rw [if_pos hguard]
        cases hcg : Store.get s { digest := desc.digest, repo := "" } with
        | some w => rfl
        | none => exact Store.get_add_ne _ _ _ _ hk2
      · rw [if_neg hguard]
    · intro v hv
      simp at hv

theorem scoped_set_delegates (R : String) (s : Store) (dgst : String) (desc : Descriptor)
    (hd : digestValidate dgst = none) (hdesc : ValidateDescriptor desc = none) :
    Scoped.SetDescriptor R s dgst desc =
      Provider.SetDescriptor (Store.add s { digest := dgst, repo := R } desc) dgst desc := by
  simp [Scoped.SetDescriptor, hd, hdesc]

theorem scoped_set_result (R : String) (s : Store) (dgst : String) (desc : Descriptor)
    (hR : R ≠ "") (hd : digestValidate dgst = none) (hdesc : ValidateDescriptor desc = none) :
    ∃ s1, Scoped.SetDescriptor R s dgst desc = (Except.ok (), s1) ∧
      Store.get s1 { digest := dgst, repo := R } = some desc ∧
      Store.get s1 { digest := dgst, repo := "" } =
        some ((Store.get s { digest := dgst, repo := "" }).getD desc) ∧
      (∀ k, k.repo ≠ R → k ≠ { digest := dgst, repo := "" } →
        k ≠ { digest := desc.digest, repo := "" } → Store.get s1 k = Store.get s k) := by
  have hrg : ({ digest := dgst, repo := R } : descriptorCacheKey) ≠ { digest := dgst, repo := "" } := by
    simp [descriptorCacheKey.mk.injEq, hR]
  have hrc : ({ digest := dgst, repo := R } : descriptorCacheKey) ≠ { digest := desc.digest, repo := "" } := by
    simp [descriptorCacheKey.mk.injEq, hR]
  obtain ⟨s1, hset, hget, hframe, _⟩ :=
    global_set_spec (Store.add s { digest := dgst, repo := R } desc) dgst desc hd hdesc
  refine ⟨s1, ?_, ?_, ?_, ?_⟩
  · rw [scoped_set_delegates R s dgst desc hd hdesc, hset]
  · rw [hframe _ hrg hrc, Store.get_add_self]
  · rw [hget, Store.get_add_ne _ _ _ _ hrg.symm]
  · intro k hkR hk1 hk2
    have hkr : k ≠ { digest := dgst, repo := R } := by
      intro h; rw [h] at hkR; exact hkR rfl
    rw [hframe _ hk1 hk2, Store.get_add_ne _ _ _ _ hkr]

theorem setDescriptorAux_one (s : Store) (dgst : String) (desc : Descriptor) :
    Provider.SetDescriptorAux 1 s dgst desc =
      match Provider.Stat s dgst with
      | Except.error CacheError.errBlobUnknown =>
        if digestAlgorithm dgst ≠ digestAlgorithm desc.digest ∧ dgst ≠ desc.digest then none
        else some (Provider.setDescriptorStore s dgst desc)
      | Except.error e => some (Except.error e, s)
      | Except.ok _ => some (Except.ok (), s) := rfl

theorem aux_canonical_fuel (fuel : Nat) (s : Store) (desc : Descriptor) :
    Provider.SetDescriptorAux (fuel + 1) s desc.digest desc =
      Provider.SetDescriptorAux 1 s desc.digest desc := by
  rw [setDescriptorAux_succ, setDescriptorAux_one]
  cases hstat : Provider.Stat s desc.digest with
  | ok v => rfl
  | error e => cases e <;> simp

theorem setDescriptorAux_fuel_indep (fuel : Nat) (s : Store) (dgst : String) (desc : Descriptor) :
    Provider.SetDescriptorAux (fuel + 2) s dgst desc =
      Provider.SetDescriptorAux 2 s dgst desc := by
  rw [show fuel + 2 = (fuel + 1) + 1 from rfl,
      setDescriptorAux_succ (fuel + 1) s dgst desc,
      show (2 : Nat) = 1 + 1 from rfl,
      setDescriptorAux_succ 1 s dgst desc]
  cases hstat : Provider.Stat s dgst with
  | ok v => rfl
  | error e =>
    cases e with
    | errBlobUnknown => rw [aux_canonical_fuel fuel s desc]
    | invalidDigest => rfl
    | invalidDescriptor => rfl
    | invalidRepositoryName => rfl

theorem setDescriptorAux_two_isSome (s : Store) (dgst : String) (desc : Descriptor) :
    (Provider.SetDescriptorAux 2 s dgst desc).isSome = true := by
  rw [show (2 : Nat) = 1 + 1 from rfl, setDescriptorAux_succ]
  cases hstat : Provider.Stat s dgst with
  | ok v => rfl
  | error e =>
    cases e with
    | errBlobUnknown =>
      by_cases hguard : digestAlgorithm dgst ≠ digestAlgorithm desc.digest ∧ dgst ≠ desc.digest
      · rw [if_pos hguard, setDescriptorAux_one]
        cases hstat2 : Provider.Stat s desc.digest with
        | ok w => rfl
        | error e2 =>
          cases e2 with
          | errBlobUnknown =>
            have hg2 : ¬(digestAlgorithm desc.digest ≠ digestAlgorithm desc.digest ∧
                desc.digest ≠ desc.digest) := by simp
            rw [if_neg hg2]
            cases hss : Provider.setDescriptorStore s desc.digest desc with
            | mk r s1 => cases r <;> rfl
          | invalidDigest => rfl
          | invalidDescriptor => rfl
          | invalidRepositoryName => rfl
      · rw [if_neg hguard]
        rfl
    | invalidDigest => rfl
    | invalidDescriptor => rfl
    | invalidRepositoryName => rfl

/-! ## Claim theorems -/

/-- Claim C1, counterexample: the claim quantifies over every pair of distinct
digests, but when the alias digest and the canonical digest share the digest
algorithm the source's guard (`dgst.Algorithm() != desc.Digest.Algorithm() &&
dgst != desc.Digest`) is false and the canonical pair is never registered:
registering `digestA ↦ descriptorB` (canonical digest `digestB`, also sha256)
from the empty store succeeds and records the alias, yet `stat(digestB)` still
fails with `ErrBlobUnknown`, contradicting `stat(dCanonical) == desc`. -/
theorem canonical_aliasing_counterexample :
    digestB ≠ digestA ∧
    descriptorB.digest = digestB ∧
    digestValidate digestA = none ∧
    ValidateDescriptor descriptorB = none ∧
    (Provider.SetDescriptor [] digestA descriptorB).1 = Except.ok () ∧
    Provider.Stat (Provider.SetDescriptor [] digestA descriptorB).2 digestA =
      Except.ok descriptorB ∧
    Provider.Stat (Provider.SetDescriptor [] digestA descriptorB).2 digestB =
      Except.error CacheError.errBlobUnknown := by
  decide

/-- Claim C1 (amended): for an alias digest and a descriptor whose canonical
digest differs from it in algorithm as well as in value (the condition the
source's guard actually tests), starting from a store where neither digest is
present, `setDescriptor(dAlias, desc)` succeeds, the canonical entry is
registered before the alias entry (the final store is the canonical add
followed by the alias add), and both `stat(dAlias)` and `stat(dCanonical)`
return `desc` afterward. -/
theorem canonical_aliasing (s : Store) (dAlias : String) (desc : Descriptor)
    (hAlg : digestAlgorithm dAlias ≠ digestAlgorithm desc.digest)
    (hNe : dAlias ≠ desc.digest)
    (hd : digestValidate dAlias = none)
    (hdesc : ValidateDescriptor desc = none)
    (hgA : Store.get s { digest := dAlias, repo := "" } = none)
    (hgC : Store.get s { digest := desc.digest, repo := "" } = none) :
    ∃ s2, Provider.SetDescriptor s dAlias desc = (Except.ok (), s2) ∧
      s2 = Store.add (Store.add s { digest := desc.digest, repo := "" } desc)
        { digest := dAlias, repo := "" } desc ∧
      Provider.Stat s2 dAlias = Except.ok desc ∧
      Provider.Stat s2 desc.digest = Except.ok desc := by
  have hdd := validateDescriptor_digest hdesc
  have hstep := global_set_of_miss s dAlias desc hd hdesc hgA
  rw [if_pos ⟨hAlg, hNe⟩, hgC] at hstep
  refine ⟨_, hstep, rfl, ?_, ?_⟩
  · exact stat_of_found hd (Store.get_add_self _ _ _)
  · have hkne : ({ digest := desc.digest, repo := "" } : descriptorCacheKey) ≠
        { digest := dAlias, repo := "" } := by
      simp [descriptorCacheKey.mk.injEq]
      intro h; exact hNe h.symm
    refine stat_of_found hdd ?_
    rw [Store.get_add_ne _ _ _ _ hkne, Store.get_add_self]

/-- Claim C1 witness for the amended theorem: the sha384 alias `digestC`
pointing at `descriptorB` (canonical sha256 digest `digestB`), from the empty
store. -/
theorem canonical_aliasing_witness :
    ∃ s2, Provider.SetDescriptor [] digestC descriptorB = (Except.ok (), s2) ∧
      s2 = Store.add (Store.add [] { digest := descriptorB.digest, repo := "" } descriptorB)
        { digest := digestC, repo := "" } descriptorB ∧
      Provider.Stat s2 digestC = Except.ok descriptorB ∧
      Provider.Stat s2 descriptorB.digest = Except.ok descriptorB :=
  canonical_aliasing [] digestC descriptorB (by decide) (by decide) (by decide)
    (by decide) (by decide) (by decide)

/-- Claim C2, counterexample: `clear` with a structurally invalid digest does
not fail with `InvalidDigest` — neither the global provider's `Clear` nor a
repository-scoped `Clear` validates the digest; both return success on the
invalid digest string `"bogus"`. -/
theorem validation_gate_counterexample :
    digestValidate "bogus" = some CacheError.invalidDigest ∧
    Provider.Clear [] "bogus" = (Except.ok (), []) ∧
    Scoped.Clear "docker.io/library/ubuntu" [] "bogus" = (Except.ok (), []) := by
  decide

/-- Claim C2 (amended): with a structurally invalid digest, `stat` and
`setDescriptor` fail with `InvalidDigest` and leave the store unchanged, on
the global provider and on any repository-scoped view; `clear`, by contrast,
performs no digest validation: it returns success, removing the (digest,
scope) key, which leaves the store unchanged whenever no entry is stored
under that key (as in any store populated only through the validated write
paths). -/
theorem validation_gate (s : Store) (d R : String) (desc : Descriptor)
    (hinv : digestValidate d = some CacheError.invalidDigest) :
    Provider.Stat s d = Except.error CacheError.invalidDigest ∧
    Provider.SetDescriptor s d desc = (Except.error CacheError.invalidDigest, s) ∧
    Scoped.Stat R s d = Except.error CacheError.invalidDigest ∧
    Scoped.SetDescriptor R s d desc = (Except.error CacheError.invalidDigest, s) ∧
    Provider.Clear s d = (Except.ok (), Store.remove s { digest := d, repo := "" }) ∧
    Scoped.Clear R s d = (Except.ok (), Store.remove s { digest := d, repo := R }) ∧
    (Store.get s { digest := d, repo := "" } = none → (Provider.Clear s d).2 = s) ∧
    (Store.get s { digest := d, repo := R } = none → (Scoped.Clear R s d).2 = s) := by
  refine ⟨stat_of_invalid hinv, ?_, ?_, ?_, rfl, rfl, ?_, ?_⟩
  · exact global_set_of_invalid s d desc (by simp) (stat_of_invalid hinv)
  · simp [Scoped.Stat, hinv]
  · simp [Scoped.SetDescriptor, hinv]
  · intro hg; exact Store.remove_of_get_none s _ hg
  · intro hg; exact Store.remove_of_get_none s _ hg

/-- Claim C2 witness: the amended theorem applied to the invalid digest
`"bogus"`, the empty store and repository `"myrepo"`. -/
theorem validation_gate_witness :
    Provider.Stat [] "bogus" = Except.error CacheError.invalidDigest ∧
    Provider.SetDescriptor [] "bogus" descriptorA =
      (Except.error CacheError.invalidDigest, []) ∧
    Scoped.Stat "myrepo" [] "bogus" = Except.error CacheError.invalidDigest ∧
    Scoped.SetDescriptor "myrepo" [] "bogus" descriptorA =
      (Except.error CacheError.invalidDigest, []) ∧
    Provider.Clear [] "bogus" =
      (Except.ok (), Store.remove [] { digest := "bogus", repo := "" }) ∧
    Scoped.Clear "myrepo" [] "bogus" =
      (Except.ok (), Store.remove [] { digest := "bogus", repo := "myrepo" }) ∧
    (Store.get [] { digest := "bogus", repo := "" } = none →
      (Provider.Clear [] "bogus").2 = []) ∧
    (Store.get [] { digest := "bogus", repo := "myrepo" } = none →
      (Scoped.Clear "myrepo" [] "bogus").2 = []) :=
  validation_gate [] "bogus" "myrepo" descriptorA (by decide)

/-- Claim C3: first-writer-wins on the global provider. Writing `descA` for a
digest not yet present succeeds and makes `stat(d)` return `descA`; a second
`setDescriptor(d, descB)` then returns success without changing the store, so
`stat(d)` still returns `descA`; more generally, whenever `stat(d)` already
succeeds, a later `setDescriptor` for `d` is a no-op. -/
theorem first_writer_wins (s : Store) (d : String) (descA descB : Descriptor)
    (hd : digestValidate d = none) (hA : ValidateDescriptor descA = none)
    (hne : descA ≠ descB) (hmiss : Store.get s { digest := d, repo := "" } = none) :
    ∃ s1, Provider.SetDescriptor s d descA = (Except.ok (), s1) ∧
      Provider.Stat s1 d = Except.ok descA ∧
      Provider.SetDescriptor s1 d descB = (Except.ok (), s1) ∧
      ∀ (s0 : Store) (v descC : Descriptor), Provider.Stat s0 d = Except.ok v →
        Provider.SetDescriptor s0 d descC = (Except.ok (), s0) := by
  obtain ⟨s1, hset, hget, _, _⟩ := global_set_spec s d descA hd hA
  rw [hmiss] at hget
  simp only [Option.getD] at hget
  have hstat1 : Provider.Stat s1 d = Except.ok descA := stat_of_found hd hget
  exact ⟨s1, hset, hstat1, global_set_of_known s1 d descB descA hstat1,
    fun s0 v descC h => global_set_of_known s0 d descC v h⟩

/-- Claim C3 witness: `descriptorA` then `descriptorA2` for `digestA` from the
empty store. -/
theorem first_writer_wins_witness :
    ∃ s1, Provider.SetDescriptor [] digestA descriptorA = (Except.ok (), s1) ∧
      Provider.Stat s1 digestA = Except.ok descriptorA ∧
      Provider.SetDescriptor s1 digestA descriptorA2 = (Except.ok (), s1) ∧
      ∀ (s0 : Store) (v descC : Descriptor), Provider.Stat s0 digestA = Except.ok v →
        Provider.SetDescriptor s0 digestA descC = (Except.ok (), s0) :=
  first_writer_wins [] digestA descriptorA descriptorA2 (by decide) (by decide)
    (by decide) (by decide)

/-- Claim C4: repository isolation with global fan-out. A write through R1's
scoped view succeeds, does not make `stat(d)` succeed through R2's scoped
view when d was not separately written under R2, and does make the global
provider's `stat(d)` succeed. -/
theorem repository_isolation (s : Store) (d R1 R2 : String) (desc : Descriptor)
    (h12 : R1 ≠ R2) (h1 : R1 ≠ "") (h2 : R2 ≠ "")
    (hd : digestValidate d = none) (hdesc : ValidateDescriptor desc = none)
    (hmiss : Store.get s { digest := d, repo := R2 } = none) :
    ∃ s1, Scoped.SetDescriptor R1 s d desc = (Except.ok (), s1) ∧
      Scoped.Stat R2 s1 d = Except.error CacheError.errBlobUnknown ∧
      ∃ v, Provider.Stat s1 d = Except.ok v := by
  obtain ⟨s1, hset, _, hGget, hframe⟩ := scoped_set_result R1 s d desc h1 hd hdesc
  have hR2none : Store.get s1 { digest := d, repo := R2 } = none := by
    rw [hframe { digest := d, repo := R2 }
      (by simpa using fun h => h12 h.symm)
      (by simp [descriptorCacheKey.mk.injEq, h2])
      (by simp [descriptorCacheKey.mk.injEq, h2])]
    exact hmiss
  exact ⟨s1, hset, scoped_stat_of_missing hd hR2none, _, stat_of_found hd hGget⟩

/-- Claim C4 witness: write `descriptorA` for `digestA` under `"repo1"` from
the empty store; `"repo2"` still misses while the global provider hits. -/
theorem repository_isolation_witness :
    ∃ s1, Scoped.SetDescriptor "repo1" [] digestA descriptorA = (Except.ok (), s1) ∧
      Scoped.Stat "repo2" s1 digestA = Except.error CacheError.errBlobUnknown ∧
      ∃ v, Provider.Stat s1 digestA = Except.ok v :=
  repository_isolation [] digestA "repo1" "repo2" descriptorA (by decide) (by decide)
    (by decide) (by decide) (by decide) (by decide)

/-- Claim C5: scoped clear asymmetry. After a scoped write for repository R,
the scoped `clear(d)` succeeds and produces exactly the store with the
repository entry `(d, R)` removed; the global entry `(d, "")` is unchanged by
the clear, so the global provider's `stat(d)` still succeeds afterward. -/
theorem scoped_clear_asymmetry (s : Store) (d R : String) (desc : Descriptor)
    (hR : R ≠ "") (hd : digestValidate d = none) (hdesc : ValidateDescriptor desc = none) :
    ∃ s1 s2, Scoped.SetDescriptor R s d desc = (Except.ok (), s1) ∧
      Scoped.Clear R s1 d = (Except.ok (), s2) ∧
      s2 = Store.remove s1 { digest := d, repo := R } ∧
      Store.get s2 { digest := d, repo := "" } = Store.get s1 { digest := d, repo := "" } ∧
      ∃ v, Provider.Stat s2 d = Except.ok v := by
  obtain ⟨s1, hset, _, hGget, _⟩ := scoped_set_result R s d desc hR hd hdesc
  have hkey : ({ digest := d, repo := "" } : descriptorCacheKey) ≠
      { digest := d, repo := R } := by
    simp [descriptorCacheKey.mk.injEq]
    intro h; exact hR h.symm
  have hpreserve : Store.get (Store.remove s1 { digest := d, repo := R })
      { digest := d, repo := "" } = Store.get s1 { digest := d, repo := "" } := by
    rw [Store.get_remove]
    exact if_neg hkey
  refine ⟨s1, _, hset, rfl, rfl, hpreserve, ?_⟩
  exact ⟨_, stat_of_found hd (hpreserve.trans hGget)⟩

/-- Claim C5 witness: write `descriptorA` for `digestA` under `"repo1"` from
the empty store, then clear it through the scoped view. -/
theorem scoped_clear_asymmetry_witness :
    ∃ s1 s2, Scoped.SetDescriptor "repo1" [] digestA descriptorA = (Except.ok (), s1) ∧
      Scoped.Clear "repo1" s1 digestA = (Except.ok (), s2) ∧
      s2 = Store.remove s1 { digest := digestA, repo := "repo1" } ∧
      Store.get s2 { digest := digestA, repo := "" } =
        Store.get s1 { digest := digestA, repo := "" } ∧
      ∃ v, Provider.Stat s2 digestA = Except.ok v :=
  scoped_clear_asymmetry [] digestA "repo1" descriptorA (by decide) (by decide) (by decide)

/-- Claim C6: write/read round-trip on the global provider. For a valid digest
and a valid descriptor whose own digest equals it, writing into a store where
the digest is not yet present succeeds, and `stat(d)` then returns exactly the
written descriptor. -/
theorem write_read_round_trip (s : Store) (d : String) (desc : Descriptor)
    (hd : digestValidate d = none) (hdesc : ValidateDescriptor desc = none)
    (heq : desc.digest = d) (hmiss : Store.get s { digest := d, repo := "" } = none) :
    ∃ s1, Provider.SetDescriptor s d desc = (Except.ok (), s1) ∧
      Provider.Stat s1 d = Except.ok desc := by
  obtain ⟨s1, hset, hget, _, _⟩ := global_set_spec s d desc hd hdesc
  rw [hmiss] at hget
  simp only [Option.getD] at hget
  exact ⟨s1, hset, stat_of_found hd hget⟩

/-- Claim C6 witness: `descriptorA` (whose digest is `digestA`) written for
`digestA` into the empty store. -/
theorem write_read_round_trip_witness :
    ∃ s1, Provider.SetDescriptor [] digestA descriptorA = (Except.ok (), s1) ∧
      Provider.Stat s1 digestA = Except.ok descriptorA :=
  write_read_round_trip [] digestA descriptorA (by decide) (by decide) (by decide)
    (by decide)

/-- Claim C7, counterexample: constructing the provider with capacity 0 is not
rejected — the constructor succeeds, replacing the non-positive size with
`math.MaxInt` (unbounded), exactly as the source's
`if size <= 0 { size = math.MaxInt }` prescribes. -/
theorem capacity_rejection_counterexample :
    NewInMemoryBlobDescriptorCacheProvider 0 = Except.ok { size := maxInt } := by
  decide

/-- Claim C7 (amended): a capacity of 0 or negative is not rejected at
construction; it is silently replaced by `math.MaxInt`, so construction
succeeds and yields an unbounded provider. -/
theorem capacity_nonpositive_unbounded (c : Int) (hc : c ≤ 0) :
    NewInMemoryBlobDescriptorCacheProvider c = Except.ok { size := maxInt } := by
  unfold NewInMemoryBlobDescriptorCacheProvider NewARC
  rw [if_pos hc, if_neg (by decide : ¬ maxInt ≤ 0)]

/-- Claim C7 witness: the amended theorem at capacity -5. -/
theorem capacity_nonpositive_unbounded_witness :
    (-5 : Int) ≤ 0 ∧
    NewInMemoryBlobDescriptorCacheProvider (-5) = Except.ok { size := maxInt } :=
  ⟨by decide, capacity_nonpositive_unbounded (-5) (by decide)⟩

/-- Claim C8, counterexample: the scoped view does not key its entries by the
normalized repository name. `"ubuntu"` normalizes to
`"docker.io/library/ubuntu"`, construction succeeds, yet a write through the
view built from `"ubuntu"` stores under repo key `"ubuntu"` — the source sets
`repo: repo`, keeping the supplied string — and nothing is stored under the
normalized name, whose scoped view consequently misses. -/
theorem scoped_view_normalized_counterexample :
    ParseNormalizedNamed "ubuntu" = some "docker.io/library/ubuntu" ∧
    "docker.io/library/ubuntu" ≠ "ubuntu" ∧
    Provider.RepositoryScoped "ubuntu" = Except.ok { repo := "ubuntu" } ∧
    Store.get (Scoped.SetDescriptor "ubuntu" [] digestA descriptorA).2
      { digest := digestA, repo := "docker.io/library/ubuntu" } = none ∧
    Store.get (Scoped.SetDescriptor "ubuntu" [] digestA descriptorA).2
      { digest := digestA, repo := "ubuntu" } = some descriptorA ∧
    Scoped.Stat "docker.io/library/ubuntu"
      (Scoped.SetDescriptor "ubuntu" [] digestA descriptorA).2 digestA =
      Except.error CacheError.errBlobUnknown := by
  decide

/-- Claim C8 (amended): scoped-view construction validates the supplied name
through the normalizer and fails with `InvalidRepositoryName` when it cannot
be normalized; a successfully constructed view retains the supplied name as
given (not its normalized form), and every entry it reads and writes is keyed
by that supplied name. -/
theorem scoped_view_construction (repo : String) :
    (ParseNormalizedNamed repo = none →
      Provider.RepositoryScoped repo = Except.error CacheError.invalidRepositoryName) ∧
    (∀ n, ParseNormalizedNamed repo = some n →
      Provider.RepositoryScoped repo = Except.ok { repo := repo }) ∧
    (∀ (s : Store) (d : String) (desc : Descriptor), repo ≠ "" →
      digestValidate d = none → ValidateDescriptor desc = none →
      ∃ s1, Scoped.SetDescriptor repo s d desc = (Except.ok (), s1) ∧
        Store.get s1 { digest := d, repo := repo } = some desc ∧
        Scoped.Stat repo s1 d = Except.ok desc) := by
  refine ⟨?_, ?_, ?_⟩
  · intro h; simp [Provider.RepositoryScoped, h]
  · intro n h; simp [Provider.RepositoryScoped, h]
  · intro s d desc hrepo hd hdesc
    obtain ⟨s1, hset, hrk, _, _⟩ := scoped_set_result repo s d desc hrepo hd hdesc
    exact ⟨s1, hset, hrk, scoped_stat_of_found hd hrk⟩

/-- Claim C8 witness: the amended theorem at `"ubuntu"` (normalizable,
construction succeeds, write and read keyed by the supplied name), and at
`"UPPER"` (not normalizable, construction fails). -/
theorem scoped_view_construction_witness :
    Provider.RepositoryScoped "ubuntu" = Except.ok { repo := "ubuntu" } ∧
    Provider.RepositoryScoped "UPPER" = Except.error CacheError.invalidRepositoryName ∧
    ∃ s1, Scoped.SetDescriptor "ubuntu" [] digestA descriptorA = (Except.ok (), s1) ∧
      Store.get s1 { digest := digestA, repo := "ubuntu" } = some descriptorA ∧
      Scoped.Stat "ubuntu" s1 digestA = Except.ok descriptorA :=
  ⟨(scoped_view_construction "ubuntu").2.1 "docker.io/library/ubuntu" (by decide),
   (scoped_view_construction "UPPER").1 (by decide),
   (scoped_view_construction "ubuntu").2.2 [] digestA descriptorA (by decide)
     (by decide) (by decide)⟩

/-- Claim C9: the global provider's `SetDescriptor` terminates on every input
with recursion depth at most one. In the fueled embedding: fuel 2 always
yields a result (never the fuel-exhaustion marker), that result is exactly
what `Provider.SetDescriptor` returns, and any extra fuel changes nothing —
because the self-call passes the descriptor's own digest, for which the
aliasing guard is necessarily false. -/
theorem setDescriptor_depth_bounded (s : Store) (dgst : String) (desc : Descriptor) :
    (Provider.SetDescriptorAux 2 s dgst desc).isSome = true ∧
    Provider.SetDescriptorAux 2 s dgst desc = some (Provider.SetDescriptor s dgst desc) ∧
    ∀ fuel, Provider.SetDescriptorAux (fuel + 2) s dgst desc =
      Provider.SetDescriptorAux 2 s dgst desc := by
  refine ⟨setDescriptorAux_two_isSome s dgst desc, ?_,
    fun fuel => setDescriptorAux_fuel_indep fuel s dgst desc⟩
  cases h : Provider.SetDescriptorAux 2 s dgst desc with
  | none =>
    have hs := setDescriptorAux_two_isSome s dgst desc
    rw [h] at hs
    cases hs
  | some r => simp [Provider.SetDescriptor, h]

/-- Claim C10: a repository-scoped `setDescriptor` with valid inputs returns
success from any starting store; when the global provider already holds an
entry for the digest, the scoped entry is written (the scoped key maps to the
new descriptor afterward) while the pre-existing global entry is left
unchanged. -/
theorem scoped_set_always_succeeds (s : Store) (d R : String) (desc v : Descriptor)
    (hR : R ≠ "") (hd : digestValidate d = none) (hdesc : ValidateDescriptor desc = none)
    (hglobal : Store.get s { digest := d, repo := "" } = some v) :
    (∀ s0 : Store, (Scoped.SetDescriptor R s0 d desc).1 = Except.ok ()) ∧
    ∃ s1, Scoped.SetDescriptor R s d desc = (Except.ok (), s1) ∧
      Store.get s1 { digest := d, repo := R } = some desc ∧
      Store.get s1 { digest := d, repo := "" } = some v := by
  constructor
  · intro s0
    obtain ⟨s1, hset, _, _, _⟩ := scoped_set_result R s0 d desc hR hd hdesc
    rw [hset]
  · obtain ⟨s1, hset, hrk, hgk, _⟩ := scoped_set_result R s d desc hR hd hdesc
    rw [hglobal] at hgk
    simp only [Option.getD] at hgk
    exact ⟨s1, hset, hrk, hgk⟩

/-- Claim C10 witness: writing `descriptorA2` for `digestA` under `"repo1"`
into a store whose global scope already maps `digestA` to `descriptorA`. -/
theorem scoped_set_always_succeeds_witness :
    (∀ s0 : Store, (Scoped.SetDescriptor "repo1" s0 digestA descriptorA2).1 =
      Except.ok ()) ∧
    ∃ s1, Scoped.SetDescriptor "repo1"
        [({ digest := digestA, repo := "" }, descriptorA)] digestA descriptorA2 =
        (Except.ok (), s1) ∧
      Store.get s1 { digest := digestA, repo := "repo1" } = some descriptorA2 ∧
      Store.get s1 { digest := digestA, repo := "" } = some descriptorA :=
  scoped_set_always_succeeds [({ digest := digestA, repo := "" }, descriptorA)]
    digestA "repo1" descriptorA2 descriptorA (by decide) (by decide) (by decide)
    (by decide)
